import Mathlib

/-!
Shallow embedding of `fence/blueprints/login/base.py` (davidmonro/fence):
the OAuth2 login/callback orchestration core.

Modelling conventions:
* Python strings are Lean `String`; URL surgery (`urlparse`, `split("?")`,
  `parse_qsl`, `urlencode`) is modelled character-by-character on `String.data`.
  Percent/plus codec translation (`unquote_plus` in `parse_qsl`, `quote_plus`
  in `urlencode`) is modelled as the identity: the claims under study concern
  parameter order, merging and fallback, never escaping, so values are taken
  to already be in their decoded form.
* Python truthiness of an optional string (`if x:`) is `truthy`:
  `None` and `""` are falsy.
* Flask/storage collaborators that live outside this module
  (`validate_redirect`, `login_user`, the IdP client, the ORM session) are
  parameters of the embedded functions; the ORM session is explicit state
  (`FenceDb`) with `add`+`commit` applying immediately, matching the
  commit-per-step style of the source.
-/

namespace Fence

/-- Characters of `l` strictly before the first occurrence of `c`
(all of `l` when `c` does not occur). -/
def takeUntil (c : Char) : List Char → List Char
  | [] => []
  | a :: l => if a = c then [] else a :: takeUntil c l

/-- Characters of `l` strictly after the first occurrence of `c`;
`none` when `c` does not occur. -/
def dropThrough (c : Char) : List Char → Option (List Char)
  | [] => none
  | a :: l => if a = c then some l else dropThrough c l

/-- Split `l` at every occurrence of `c`; `n` separators yield `n+1` chunks. -/
def splitListOn (c : Char) : List Char → List (List Char)
  | [] => [[]]
  | a :: l =>
    if a = c then [] :: splitListOn c l
    else match splitListOn c l with
      | [] => [[a]]
      | chunk :: rest => (a :: chunk) :: rest

/-- `urlparse(s).query`: the fragment (everything after the first `#`) is
split off first, then the query is everything after the first `?` of what
remains (empty when there is no `?`). -/
def urlQuery (s : String) : String :=
  match dropThrough '?' (takeUntil '#' s.data) with
  | some q => ⟨q⟩
  | none => ""

/-- `s.split("?")[0]`: everything before the first `?` of `s`. -/
def splitQbase (s : String) : String :=
  ⟨takeUntil '?' s.data⟩

/-- `urllib.parse.parse_qsl(q, keep_blank_values=True)`: split the query on
`&`, drop empty chunks, split each chunk at its first `=` (a chunk without
`=` keeps a blank value because `keep_blank_values=True`). Codec translation
is the identity (see module header). -/
def parse_qsl (q : String) : List (String × String) :=
  (splitListOn '&' q.data).filterMap fun chunk =>
    if chunk.isEmpty then none
    else match dropThrough '=' chunk with
      | some v => some (⟨takeUntil '=' chunk⟩, ⟨v⟩)
      | none => some (⟨chunk⟩, "")

/-- `urllib.parse.urlencode(l)`: `k=v` pairs joined by `&`
(codec translation is the identity, see module header). -/
def urlencode : List (String × String) → String
  | [] => ""
  | [(k, v)] => k ++ "=" ++ v
  | (k, v) :: p :: rest => k ++ "=" ++ v ++ "&" ++ urlencode (p :: rest)

/-- `dict(l).get(k)` on an association list: Python `dict` keeps the last
binding of a duplicated key, so the lookup finds the last occurrence. -/
def dictGet (l : List (String × String)) (k : String) : Option String :=
  (l.reverse.find? fun p => p.1 == k).map (·.2)

/-- `l.get(k)` on a multi-dict such as `flask.request.args`: the first
occurrence wins. -/
def firstGet (l : List (String × String)) (k : String) : Option String :=
  (l.find? fun p => p.1 == k).map (·.2)

/-- Python truthiness of an optional string: `None` and `""` are falsy. -/
def truthy : Option String → Bool
  | none => false
  | some s => s != ""

/-- `s.lower()` as used on provider names: per-character case mapping.
(Python performs full Unicode case mapping; provider names are ASCII.) -/
def strLower (s : String) : String :=
  ⟨s.data.map Char.toLower⟩

/-- `s.upper()` as used on provider names: per-character case mapping. -/
def strUpper (s : String) : String :=
  ⟨s.data.map Char.toUpper⟩

/-! ## Storage model (`fence.models.IdentityProvider`, `fence.models.IdPToUser`) -/

/-- A row of the `IdentityProvider` table: keyed by `name`, with an optional
`description`; `id` is the ORM-assigned primary key. -/
structure IdentityProvider where
  id : Nat
  name : String
  description : String
deriving Repr, DecidableEq

/-- A row of the `IdPToUser` table: the binding of one external subject to
one local user. Field names follow the source (`sub`, `fk_to_idp`,
`fk_to_User`, `extra_info`); `extra_info` is an opaque payload. -/
structure IdPToUser where
  sub : String
  fk_to_idp : Nat
  fk_to_User : Nat
  extra_info : Option String
deriving Repr, DecidableEq

/-- The visible state of the storage collaborator: the two tables touched by
this module plus a primary-key counter for `IdentityProvider`. `add` +
`commit` in the source append a row and make it durable at once
(commit-per-step), so they are modelled as an immediate append. -/
structure FenceDb where
  providers : List IdentityProvider
  idpToUsers : List IdPToUser
  nextProviderId : Nat
deriving Repr, DecidableEq

/-- The empty storage state. -/
def FenceDb.empty : FenceDb :=
  { providers := [], idpToUsers := [], nextProviderId := 0 }

/-- Lines 126-138 of `map_user_idp_info`: query `IdentityProvider` by name
(`.first()`); if absent, construct a row with the generic description
`"IdP from foreign Passport"`, `add` it and `commit`. Returns the provider
row used together with the storage state after the commit. -/
def ensureIdentityProvider (db : FenceDb) (provider : String) :
    IdentityProvider × FenceDb :=
  match db.providers.find? (fun p => p.name == provider) with
  | some p => (p, db)
  | none =>
    let p : IdentityProvider :=
      { id := db.nextProviderId, name := provider
        description := "IdP from foreign Passport" }
    (p, { db with providers := db.providers ++ [p]
                  nextProviderId := db.nextProviderId + 1 })

/-- `DefaultOAuth2Callback.map_user_idp_info(user, idp_sub, provider,
current_session, extra_info)`: ensure the `IdentityProvider` row exists
(committed immediately), then construct an `IdPToUser` row with
`sub = "{provider}_{idp_sub}"` pointing at that provider and at `user.id`,
`add` it and `commit`. The insert is unconditional: no lookup of an existing
row with the same `sub` precedes it. -/
def map_user_idp_info (db : FenceDb) (userId : Nat) (idp_sub provider : String)
    (extra_info : Option String) : FenceDb :=
  let (idp, db1) := ensureIdentityProvider db provider
  let user_to_idp : IdPToUser :=
    { sub := provider ++ "_" ++ idp_sub
      fk_to_idp := idp.id
      fk_to_User := userId
      extra_info := extra_info }
  { db1 with idpToUsers := db1.idpToUsers ++ [user_to_idp] }

/-- Number of `IdPToUser` rows whose `sub` equals `key`. -/
def countSub (db : FenceDb) (key : String) : Nat :=
  (db.idpToUsers.filter fun r => r.sub == key).length

/-! ## Configuration, session, collaborators -/

/-- The per-provider block of `config["OPENID_CONNECT"]`. The source reads
`mock` with default `False` and `mock_default_user` with default
`"test@example.com"`; absent keys are `none` here and the defaults are
applied at the read sites, as in the source. -/
structure ProviderConf where
  mock : Option Bool
  mock_default_user : Option String

/-- The slice of the global configuration this module reads. `openidConnect`
is `config["OPENID_CONNECT"]` as a keyed lookup (the source looks up
`idp_name.lower()`); `mockAuthFlag` is `config.get(key, False)` for the
legacy `"MOCK_<IDP>_AUTH"` keys; `registerEndpointPath` stands for
`flask.url_for("register.register_user")`, whose routing table is outside
this module. -/
structure FenceConfig where
  openidConnect : String → Option ProviderConf
  mockAuthFlag : String → Bool
  devLoginCookieName : Option String
  registerUsersOn : Bool
  baseUrl : String
  registerEndpointPath : String

/-- The session keys this module consumes (`flask.session`). -/
structure Session where
  redirect : Option String
  fence_idp : Option String
  shib_idp : Option String
  client_id : Option String
deriving Repr, DecidableEq

/-- `flask.g.user` as it stands after `login_user`: the resolved local
principal. `registrationInfoTruthy` is the truthiness of
`user.additional_info.get("registration_info")`. -/
structure GUser where
  username : String
  id : Nat
  registrationInfoTruthy : Bool
deriving Repr, DecidableEq

/-- An HTTP response produced by this module: `flask.redirect(location)` or
`flask.jsonify({"username": username})`. -/
inductive Response where
  | redirect (location : String)
  | json (username : String)
deriving Repr, DecidableEq

/-- `flask.g.audit_data` as built by `prepare_login_log`. -/
structure AuditData where
  username : String
  sub : Nat
  idp : String
  fence_idp : Option String
  shib_idp : Option String
  client_id : Option String
deriving Repr, DecidableEq

/-- The collaborator calls a request handler makes, recorded so that theorems
can state which external effects occurred: each `login_user(username,
idp_name, email)` call, whether `client.get_auth_url()` was invoked, and the
audit record `prepare_login_log` installed (if it ran). -/
structure Trace where
  loginUserCalls : List (String × String × Option String)
  getAuthUrlCalled : Bool
  audit : Option AuditData
deriving Repr, DecidableEq

/-- The empty trace: no collaborator call has happened. -/
def Trace.none : Trace :=
  { loginUserCalls := [], getAuthUrlCalled := false, audit := Option.none }

/-- `prepare_login_log(idp_name)`: assemble `flask.g.audit_data` from the
resolved principal and the ambient session markers. -/
def prepare_login_log (user : GUser) (idp_name : String) (session : Session) :
    AuditData :=
  { username := user.username
    sub := user.id
    idp := idp_name
    fence_idp := session.fence_idp
    shib_idp := session.shib_idp
    client_id := session.client_id }

/-! ## `_login`: the shared login-completion sequence -/

/-- `_login(username, idp_name, email=None)`: call the external
`login_user` collaborator (modelled by `resolveUser`, which yields the
resolved `flask.g.user`), then pick the response: a redirect to
`BASE_URL + url_for("register.register_user")` when `REGISTER_USERS_ON` is
set and the user has no truthy `registration_info`; else a redirect to the
session-saved redirect when one is truthy; else
`jsonify({"username": username})`. Returns the response together with the
resolved principal (`flask.g.user`). -/
def «_login» (cfg : FenceConfig)
    (resolveUser : String → String → Option String → GUser)
    (session : Session) (username idp_name : String) (email : Option String) :
    Response × GUser :=
  let user := resolveUser username idp_name email
  let resp :=
    if cfg.registerUsersOn && !user.registrationInfoTruthy then
      Response.redirect (cfg.baseUrl ++ cfg.registerEndpointPath)
    else if truthy session.redirect then
      Response.redirect (session.redirect.getD "")
    else
      Response.json username
  (resp, user)

/-! ## `DefaultOAuth2Login.get` -/

/-- The `mock_login` local of `DefaultOAuth2Login.get`:
`config["OPENID_CONNECT"].get(idp_name.lower(), {}).get("mock", False)`. -/
def mock_login (cfg : FenceConfig) (idp_name : String) : Bool :=
  ((cfg.openidConnect (strLower idp_name)).bind ProviderConf.mock).getD false

/-- The `legacy_mock_login` local of `DefaultOAuth2Login.get`:
`config.get("MOCK_{}_AUTH".format(idp_name.upper()), False)`. -/
def legacy_mock_login (cfg : FenceConfig) (idp_name : String) : Bool :=
  cfg.mockAuthFlag ("MOCK_" ++ (strUpper idp_name) ++ "_AUTH")

/-- The `mock_default_user` local of `DefaultOAuth2Login.get`:
`config["OPENID_CONNECT"].get(idp_name.lower(), {}).get("mock_default_user",
"test@example.com")`. -/
def mock_default_user (cfg : FenceConfig) (idp_name : String) : String :=
  ((cfg.openidConnect (strLower idp_name)).bind ProviderConf.mock_default_user).getD
    "test@example.com"

/-- The mock-branch username of `DefaultOAuth2Login.get`:
`flask.request.cookies.get(config.get("DEV_LOGIN_COOKIE_NAME"),
mock_default_user)`. When no dev-login cookie name is configured the Python
lookup `cookies.get(None, default)` yields the default. -/
def mockUsername (cfg : FenceConfig) (idp_name : String)
    (cookies : String → Option String) : String :=
  match cfg.devLoginCookieName with
  | some cookieName => (cookies cookieName).getD (mock_default_user cfg idp_name)
  | none => mock_default_user cfg idp_name

/-- Lines 28-30 of `DefaultOAuth2Login.get`: a truthy `redirect` query
argument is stored into the session. -/
def sessionAfterLoginStore (session : Session) (redirectArg : Option String) :
    Session :=
  if truthy redirectArg then { session with redirect := redirectArg }
  else session

/-- `DefaultOAuth2Login.get()`. Steps, in source order: read the `redirect`
query argument; run `validate_redirect` (an external collaborator, modelled
by the `validateOk` predicate — when it fails the handler raises before
anything else happens, so the session is returned unchanged and no response
is produced); store a truthy redirect into the session; resolve mock mode
from the per-provider `mock` flag or the legacy `MOCK_<IDP>_AUTH` flag; in
mock mode take the username from the dev-login cookie (fallback:
`mock_default_user`, fallback `"test@example.com"`), complete the login via
`_login` and record the audit data; otherwise redirect to
`client.get_auth_url()` (the call is recorded in the trace). -/
def loginGet (cfg : FenceConfig) (idp_name : String) (getAuthUrl : String)
    (validateOk : Option String → Bool)
    (resolveUser : String → String → Option String → GUser)
    (redirectArg : Option String) (cookies : String → Option String)
    (session : Session) : Except Unit Response × Session × Trace :=
  if !(validateOk redirectArg) then (Except.error (), session, Trace.none)
  else
    let session1 := sessionAfterLoginStore session redirectArg
    if mock_login cfg idp_name || legacy_mock_login cfg idp_name then
      let username := mockUsername cfg idp_name cookies
      let (resp, user) :=
        «_login» cfg resolveUser session1 username idp_name Option.none
      (Except.ok resp, session1,
        { loginUserCalls := [(username, idp_name, Option.none)]
          getAuthUrlCalled := false
          audit := some (prepare_login_log user idp_name session1) })
    else
      (Except.ok (Response.redirect getAuthUrl), session1,
        { loginUserCalls := [], getAuthUrlCalled := true
          audit := Option.none })

/-! ## `DefaultOAuth2Callback.get` -/

/-- Lines 80-99 of `DefaultOAuth2Callback.get`, the IdP-error branch:
parse the callback request's query (`keep_blank_values=True`); resolve the
stored redirect (`flask.session.get("redirect") or config["BASE_URL"]`);
parse its query; replace the target by the `redirect_uri` entry of
`dict(redirect_query_params)` when that entry is truthy (`... or
redirect_uri`); finally emit
`redirect_uri.split("?")[0] + "?" + urlencode(redirect_query_params +
received_query_params)`. -/
def callbackErrorRedirectUrl (cfg : FenceConfig) (requestUrl : String)
    (session : Session) : String :=
  let received_query_params := parse_qsl (urlQuery requestUrl)
  let redirect_uri0 :=
    if truthy session.redirect then session.redirect.getD "" else cfg.baseUrl
  let redirect_query_params := parse_qsl (urlQuery redirect_uri0)
  let redirect_uri :=
    match dictGet redirect_query_params "redirect_uri" with
    | some v => if v != "" then v else redirect_uri0
    | none => redirect_uri0
  splitQbase redirect_uri ++ "?" ++
    urlencode (redirect_query_params ++ received_query_params)

/-- `DefaultOAuth2Callback.get()`. If the `error` query argument is truthy,
take the error branch (`callbackErrorRedirectUrl`) — no exchange and no
login happen. Otherwise exchange the `code` argument via
`client.get_user_id` (modelled by `getUserId`; the payload is a Python dict,
modelled as an association list with unique keys, looked up by `firstGet`),
extract `username` and `email` by the configured field names, and: when the
username is truthy, complete the login via `_login` and run the default
`post_login` hook (`prepare_login_log`); when it is not, raise
`UserError(result)`, modelled as `Except.error` carrying the raw payload. -/
def callbackGet (cfg : FenceConfig) (idp_name username_field email_field : String)
    (getUserId : Option String → List (String × String))
    (resolveUser : String → String → Option String → GUser)
    (requestUrl : String) (session : Session) :
    Except (List (String × String)) Response × Trace :=
  let args := parse_qsl (urlQuery requestUrl)
  if truthy (firstGet args "error") then
    (Except.ok (Response.redirect (callbackErrorRedirectUrl cfg requestUrl session)),
      Trace.none)
  else
    let code := firstGet args "code"
    let result := getUserId code
    let username := firstGet result username_field
    let email := firstGet result email_field
    if truthy username then
      let u := username.getD ""
      let (resp, user) := «_login» cfg resolveUser session u idp_name email
      (Except.ok resp,
        { loginUserCalls := [(u, idp_name, email)]
          getAuthUrlCalled := false
          audit := some (prepare_login_log user idp_name session) })
    else
      (Except.error result, Trace.none)

/-! ## Spec-side definitions

These follow the spec's words (for the refinement-style claims) rather than
the source, and are compared with the embedded code by theorem. -/

/-- Spec (§4.4, claim C2): the stored redirect used by the error branch —
"prefer the session-stored redirect, else a configured base URL". A session
value that is absent or empty counts as "no stored redirect" (the login
endpoint only ever stores a non-empty redirect). -/
def specStoredRedirect (cfg : FenceConfig) (session : Session) : String :=
  match session.redirect with
  | some r => if r = "" then cfg.baseUrl else r
  | none => cfg.baseUrl

/-- Spec (claim C2): the redirect target of the error branch — "the
`redirect_uri` query parameter embedded in the stored session redirect
(falling back to the stored redirect itself, then to the configured base
URL)". When the parameter key is duplicated the last binding counts (Python
`dict` semantics), and an empty value counts as not embedded. -/
def specErrorTarget (cfg : FenceConfig) (session : Session) : String :=
  let stored := specStoredRedirect cfg session
  match dictGet (parse_qsl (urlQuery stored)) "redirect_uri" with
  | some v => if v = "" then stored else v
  | none => stored

/-- Spec (claim C2): the final query string of the error branch — "the
concatenation of the stored redirect's query parameters followed by the
callback request's query parameters, with duplicates preserved in that
order". -/
def specErrorQueryString (cfg : FenceConfig) (requestUrl : String)
    (session : Session) : String :=
  urlencode (parse_qsl (urlQuery (specStoredRedirect cfg session)) ++
    parse_qsl (urlQuery requestUrl))

/-- Spec (§4.5, claim C4): the response selection of the login-completion
sequence — registration redirect first (when registration is required and
the user lacks registration metadata), else the saved session redirect,
else a JSON confirmation carrying exactly the username. -/
def specLoginResponse (cfg : FenceConfig) (username : String)
    (hasRegInfo : Bool) (sessionRedirect : Option String) : Response :=
  if cfg.registerUsersOn && !hasRegInfo then
    Response.redirect (cfg.baseUrl ++ cfg.registerEndpointPath)
  else
    match sessionRedirect with
    | some r => if r = "" then Response.json username else Response.redirect r
    | none => Response.json username

/-! ## Concrete sample inputs for closed instances -/

/-- A plain configuration: no mock flags, no dev cookie, registration off. -/
def sampleConfig : FenceConfig :=
  { openidConnect := fun _ => Option.none
    mockAuthFlag := fun _ => false
    devLoginCookieName := Option.none
    registerUsersOn := false
    baseUrl := "https://fence.example"
    registerEndpointPath := "/user/register" }

/-- A configuration whose provider block `"idp"` enables mock mode with a
configured default user and a dev-login cookie name. -/
def mockConfig : FenceConfig :=
  { openidConnect := fun k =>
      if k = "idp" then
        some { mock := some true, mock_default_user := some "a@x.com" }
      else Option.none
    mockAuthFlag := fun _ => false
    devLoginCookieName := some "dev_login"
    registerUsersOn := false
    baseUrl := "https://fence.example"
    registerEndpointPath := "/user/register" }

/-- A configuration whose provider block `"idp"` enables mock mode but
specifies no `mock_default_user`. -/
def bareMockConfig : FenceConfig :=
  { openidConnect := fun k =>
      if k = "idp" then
        some { mock := some true, mock_default_user := Option.none }
      else Option.none
    mockAuthFlag := fun _ => false
    devLoginCookieName := some "dev_login"
    registerUsersOn := false
    baseUrl := "https://fence.example"
    registerEndpointPath := "/user/register" }

/-- An empty session. -/
def sampleSession : Session :=
  { redirect := Option.none, fence_idp := Option.none
    shib_idp := Option.none, client_id := Option.none }

/-- A session holding the stored redirect of the spec's callback-error
example. -/
def storedSession : Session :=
  { redirect := some "https://app.example/cb?redirect_uri=https://app.example/done&state=xyz"
    fence_idp := Option.none, shib_idp := Option.none, client_id := Option.none }

/-- A `login_user` collaborator resolving any username to a registered
local user. -/
def sampleResolve : String → String → Option String → GUser :=
  fun u _ _ => { username := u, id := 7, registrationInfoTruthy := true }

/-- A cookie jar carrying the dev-login cookie `dev_login=b@x.com`. -/
def devCookies : String → Option String :=
  fun n => if n = "dev_login" then some "b@x.com" else Option.none

/-- An exchange collaborator returning a payload that carries a username
but no email field. -/
def samplePayload : Option String → List (String × String) :=
  fun _ => [("username", "u@x.com")]

/-! ## Helper lemmas -/

/-- An optional string is Python-falsy exactly when it is absent or empty. -/
theorem truthy_eq_false_iff (o : Option String) :
    truthy o = false ↔ o = Option.none ∨ o = some "" := by
  cases o with
  | none => simp [truthy]
  | some s => simp [truthy]

/-- `ensureIdentityProvider` never touches the `IdPToUser` table. -/
theorem ensureIdentityProvider_idpToUsers (db : FenceDb) (provider : String) :
    (ensureIdentityProvider db provider).2.idpToUsers = db.idpToUsers := by
  unfold ensureIdentityProvider
  cases db.providers.find? (fun p => p.name == provider) <;> simp

/-- The provider row returned by `ensureIdentityProvider` carries the
requested name. -/
theorem ensureIdentityProvider_name (db : FenceDb) (provider : String) :
    (ensureIdentityProvider db provider).1.name = provider := by
  unfold ensureIdentityProvider
  cases h : db.providers.find? (fun p => p.name == provider) with
  | none => simp
  | some p =>
    have := List.find?_some h
    simp_all

/-- The provider row returned by `ensureIdentityProvider` is a row of the
committed state it returns. -/
theorem ensureIdentityProvider_mem (db : FenceDb) (provider : String) :
    (ensureIdentityProvider db provider).1 ∈
      (ensureIdentityProvider db provider).2.providers := by
  unfold ensureIdentityProvider
  cases h : db.providers.find? (fun p => p.name == provider) with
  | none => simp
  | some p =>
    have := List.mem_of_find?_eq_some h
    simp_all

/-- One `map_user_idp_info` call adds exactly one row whose `sub` is the
composite key, on top of whatever rows with that key already existed. -/
theorem countSub_map_user_idp_info (db : FenceDb) (userId : Nat)
    (idp_sub provider : String) (extra_info : Option String) :
    countSub (map_user_idp_info db userId idp_sub provider extra_info)
        (provider ++ "_" ++ idp_sub) =
      countSub db (provider ++ "_" ++ idp_sub) + 1 := by
  unfold map_user_idp_info countSub
  simp [ensureIdentityProvider_idpToUsers, List.filter_append]

/-- `map_user_idp_info` leaves the provider table exactly as
`ensureIdentityProvider` committed it. -/
theorem map_user_idp_info_providers (db : FenceDb) (userId : Nat)
    (idp_sub provider : String) (extra_info : Option String) :
    (map_user_idp_info db userId idp_sub provider extra_info).providers =
      (ensureIdentityProvider db provider).2.providers := by
  unfold map_user_idp_info
  rcases hE : ensureIdentityProvider db provider with ⟨idp, db1⟩
  simp

/-- `map_user_idp_info` appends exactly one binding row, whose `sub` is the
composite key and whose `fk_to_idp` is the id of the provider row that
`ensureIdentityProvider` returned. -/
theorem map_user_idp_info_idpToUsers (db : FenceDb) (userId : Nat)
    (idp_sub provider : String) (extra_info : Option String) :
    (map_user_idp_info db userId idp_sub provider extra_info).idpToUsers =
      db.idpToUsers ++
        [{ sub := provider ++ "_" ++ idp_sub,
           fk_to_idp := (ensureIdentityProvider db provider).1.id,
           fk_to_User := userId, extra_info := extra_info }] := by
  unfold map_user_idp_info
  have h2 := ensureIdentityProvider_idpToUsers db provider
  rcases hE : ensureIdentityProvider db provider with ⟨idp, db1⟩
  rw [hE] at h2
  simp at h2
  simp [h2]

/-- When no provider row with the requested name exists,
`ensureIdentityProvider` creates one with the generic description. -/
theorem ensureIdentityProvider_description (db : FenceDb) (provider : String)
    (h : db.providers.find? (fun p => p.name == provider) = Option.none) :
    (ensureIdentityProvider db provider).1.description =
      "IdP from foreign Passport" := by
  unfold ensureIdentityProvider
  rw [h]

/-- On a validated request with mock mode resolved enabled, `loginGet`
completes the login inline: its response is the `_login` response for the
mock username, the IdP client is never asked for an authorization URL, and
the audit data is prepared. -/
theorem loginGet_mock (cfg : FenceConfig) (idp_name getAuthUrl : String)
    (validateOk : Option String → Bool)
    (resolveUser : String → String → Option String → GUser)
    (redirectArg : Option String) (cookies : String → Option String)
    (session : Session)
    (hv : validateOk redirectArg = true)
    (hm : (mock_login cfg idp_name || legacy_mock_login cfg idp_name) = true) :
    loginGet cfg idp_name getAuthUrl validateOk resolveUser redirectArg cookies
        session =
      (Except.ok («_login» cfg resolveUser (sessionAfterLoginStore session redirectArg)
          (mockUsername cfg idp_name cookies) idp_name Option.none).1,
        sessionAfterLoginStore session redirectArg,
        { loginUserCalls := [(mockUsername cfg idp_name cookies, idp_name, Option.none)]
          getAuthUrlCalled := false
          audit := some (prepare_login_log
            («_login» cfg resolveUser (sessionAfterLoginStore session redirectArg)
              (mockUsername cfg idp_name cookies) idp_name Option.none).2
            idp_name (sessionAfterLoginStore session redirectArg)) }) := by
  unfold loginGet
  simp [hv, hm]

/-- On a validated request with mock mode resolved disabled, `loginGet`
redirects to `client.get_auth_url()` and performs no login. -/
theorem loginGet_real (cfg : FenceConfig) (idp_name getAuthUrl : String)
    (validateOk : Option String → Bool)
    (resolveUser : String → String → Option String → GUser)
    (redirectArg : Option String) (cookies : String → Option String)
    (session : Session)
    (hv : validateOk redirectArg = true)
    (hm : (mock_login cfg idp_name || legacy_mock_login cfg idp_name) = false) :
    loginGet cfg idp_name getAuthUrl validateOk resolveUser redirectArg cookies
        session =
      (Except.ok (Response.redirect getAuthUrl),
        sessionAfterLoginStore session redirectArg,
        { loginUserCalls := [], getAuthUrlCalled := true
          audit := Option.none }) := by
  unfold loginGet
  simp [hv, hm]

/-- When the provider block specifies no `mock_default_user` and the
dev-login cookie is absent, the mock username is the hardcoded fallback. -/
theorem mockUsername_default (cfg : FenceConfig) (idp_name : String)
    (cookies : String → Option String)
    (hconf : (cfg.openidConnect (strLower idp_name)).bind
        ProviderConf.mock_default_user = Option.none)
    (hcookie : ∀ cookieName, cfg.devLoginCookieName = some cookieName →
        cookies cookieName = Option.none) :
    mockUsername cfg idp_name cookies = "test@example.com" := by
  unfold mockUsername mock_default_user
  cases hd : cfg.devLoginCookieName with
  | none => simp [hconf]
  | some n => simp [hcookie n hd, hconf]

/-! ## Claims -/

/-- Claim C1, counterexample: from an empty store, invoking
`map_user_idp_info` twice with the same `(user, external subject,
provider)` leaves TWO `IdPToUser` rows whose `sub` is the composite key
`"prov_sub1"`, not exactly one: the insert is blind, so the second
invocation does create a duplicate row. -/
theorem C1_counterexample :
    countSub (map_user_idp_info (map_user_idp_info FenceDb.empty 1 "sub1" "prov"
        Option.none) 1 "sub1" "prov" Option.none) "prov_sub1" = 2 ∧
    countSub (map_user_idp_info (map_user_idp_info FenceDb.empty 1 "sub1" "prov"
        Option.none) 1 "sub1" "prov" Option.none) "prov_sub1" ≠ 1 := by
  decide

/-- Claim C1, amended: for every user, external subject and provider name,
each invocation of `map_user_idp_info` appends one `IdPToUser` row whose
`sub` is the composite key, so invoking it twice with the same
`(user, external_subject, provider_name)` leaves exactly two more such rows
than before — the second invocation duplicates the binding instead of
upserting. -/
theorem C1_blind_insert_duplicates (db : FenceDb) (userId : Nat)
    (idp_sub provider : String) (extra_info : Option String) :
    countSub (map_user_idp_info (map_user_idp_info db userId idp_sub provider
        extra_info) userId idp_sub provider extra_info)
        (provider ++ "_" ++ idp_sub) =
      countSub db (provider ++ "_" ++ idp_sub) + 2 := by
  rw [countSub_map_user_idp_info, countSub_map_user_idp_info]

/-- Claim C4: for every completed login, the `_login` response is selected
in priority order — a redirect to the registration endpoint when
registration is required and the resolved user lacks registration metadata
(even when a saved session redirect exists, since the equation holds for
every session); else a redirect to the saved session redirect; else a JSON
confirmation body containing exactly the username. -/
theorem C4_login_response_priority (cfg : FenceConfig)
    (resolveUser : String → String → Option String → GUser) (session : Session)
    (username idp_name : String) (email : Option String) :
    («_login» cfg resolveUser session username idp_name email).1 =
      specLoginResponse cfg username
        (resolveUser username idp_name email).registrationInfoTruthy
        session.redirect := by
  unfold «_login» specLoginResponse
  cases hr : session.redirect with
  | none => simp [truthy]
  | some r => by_cases hr0 : r = "" <;> simp [truthy, hr0]

/-- Claim C7: for every inbound login request, when redirect validation
fails the handler stops before anything else: the session (in particular
its pending redirect) is returned unchanged, the result is the propagated
error rather than any response, and no collaborator call was made. -/
theorem C7_invalid_redirect_no_effect (cfg : FenceConfig)
    (idp_name getAuthUrl : String) (validateOk : Option String → Bool)
    (resolveUser : String → String → Option String → GUser)
    (redirectArg : Option String) (cookies : String → Option String)
    (session : Session) (h : validateOk redirectArg = false) :
    loginGet cfg idp_name getAuthUrl validateOk resolveUser redirectArg cookies
        session = (Except.error (), session, Trace.none) := by
  unfold loginGet
  simp [h]

/-- Claim C7, witness: a concrete rejected redirect leaves the session as
it was and produces no redirect response. -/
theorem C7_witness :
    (fun (_ : Option String) => false) (some "https://evil.example") = false ∧
    loginGet sampleConfig "idp" "https://idp/auth" (fun _ => false)
        sampleResolve (some "https://evil.example") (fun _ => Option.none)
        sampleSession = (Except.error (), sampleSession, Trace.none) :=
  ⟨rfl, C7_invalid_redirect_no_effect sampleConfig "idp" "https://idp/auth"
    (fun _ => false) sampleResolve (some "https://evil.example")
    (fun _ => Option.none) sampleSession rfl⟩

/-- Claim C8: after `map_user_idp_info` returns, an `IdentityProvider` row
with the requested name exists in the provider table; that row is already a
member of the state `ensureIdentityProvider` committed, i.e. it is committed
before the `IdPToUser` binding is constructed; when it was absent it was
created with the generic foreign-passport description; and the operation
always completes, appending one binding row whose `fk_to_idp` references
exactly that provider row — so the mapping never fails solely because the
provider row did not yet exist. -/
theorem C8_provider_autoregistration (db : FenceDb) (userId : Nat)
    (idp_sub provider : String) (extra_info : Option String) :
    ((ensureIdentityProvider db provider).1 ∈
        (map_user_idp_info db userId idp_sub provider extra_info).providers ∧
      (ensureIdentityProvider db provider).1.name = provider)
    ∧ (ensureIdentityProvider db provider).1 ∈
        (ensureIdentityProvider db provider).2.providers
    ∧ (db.providers.find? (fun p => p.name == provider) = Option.none →
        (ensureIdentityProvider db provider).1.description =
          "IdP from foreign Passport")
    ∧ (map_user_idp_info db userId idp_sub provider extra_info).idpToUsers =
        db.idpToUsers ++
          [{ sub := provider ++ "_" ++ idp_sub,
             fk_to_idp := (ensureIdentityProvider db provider).1.id,
             fk_to_User := userId, extra_info := extra_info }] :=
  ⟨⟨by
      rw [map_user_idp_info_providers]
      exact ensureIdentityProvider_mem db provider,
    ensureIdentityProvider_name db provider⟩,
  ensureIdentityProvider_mem db provider,
  fun h => ensureIdentityProvider_description db provider h,
  map_user_idp_info_idpToUsers db userId idp_sub provider extra_info⟩

/-- Claim C8, witness: a provider name never seen before is auto-created
with the generic description and ends up in the provider table. -/
theorem C8_witness :
    FenceDb.empty.providers.find? (fun p => p.name == "newidp") = Option.none ∧
    (ensureIdentityProvider FenceDb.empty "newidp").1.description =
      "IdP from foreign Passport" ∧
    (ensureIdentityProvider FenceDb.empty "newidp").1 ∈
      (map_user_idp_info FenceDb.empty 1 "s" "newidp" Option.none).providers :=
  ⟨by decide,
  (C8_provider_autoregistration FenceDb.empty 1 "s" "newidp" Option.none).2.2.1
    (by decide),
  (C8_provider_autoregistration FenceDb.empty 1 "s" "newidp" Option.none).1.1⟩

/-- Claim C5: for every login request for which mock mode is resolved as
enabled, the login entry point completes the login inline — returning the
`_login` response for the synthetic username, with exactly one call to the
login collaborator — and never invokes the IdentityProviderClient: the
trace shows `get_auth_url` was not called, so no redirect to the IdP is
emitted. -/
theorem C5_mock_login_inline (cfg : FenceConfig) (idp_name getAuthUrl : String)
    (validateOk : Option String → Bool)
    (resolveUser : String → String → Option String → GUser)
    (redirectArg : Option String) (cookies : String → Option String)
    (session : Session)
    (hv : validateOk redirectArg = true)
    (hm : (mock_login cfg idp_name || legacy_mock_login cfg idp_name) = true) :
    (loginGet cfg idp_name getAuthUrl validateOk resolveUser redirectArg cookies
        session).2.2.getAuthUrlCalled = false
    ∧ (loginGet cfg idp_name getAuthUrl validateOk resolveUser redirectArg
        cookies session).1 =
        Except.ok («_login» cfg resolveUser
          (sessionAfterLoginStore session redirectArg)
          (mockUsername cfg idp_name cookies) idp_name Option.none).1
    ∧ (loginGet cfg idp_name getAuthUrl validateOk resolveUser redirectArg
        cookies session).2.2.loginUserCalls =
        [(mockUsername cfg idp_name cookies, idp_name, Option.none)] := by
  rw [loginGet_mock cfg idp_name getAuthUrl validateOk resolveUser redirectArg
    cookies session hv hm]
  exact ⟨rfl, rfl, rfl⟩

/-- Claim C5, witness: with provider config `{mock: true, mock_default_user:
"a@x.com"}` and no dev cookie, the login completes as `a@x.com` without
consulting the IdP client. -/
theorem C5_witness :
    (mock_login mockConfig "idp" || legacy_mock_login mockConfig "idp") = true ∧
    (loginGet mockConfig "idp" "https://idp/auth" (fun _ => true) sampleResolve
        Option.none (fun _ => Option.none) sampleSession).2.2.getAuthUrlCalled
      = false ∧
    (loginGet mockConfig "idp" "https://idp/auth" (fun _ => true) sampleResolve
        Option.none (fun _ => Option.none) sampleSession).2.2.loginUserCalls
      = [("a@x.com", "idp", Option.none)] :=
  ⟨by decide,
  (C5_mock_login_inline mockConfig "idp" "https://idp/auth" (fun _ => true)
    sampleResolve Option.none (fun _ => Option.none) sampleSession rfl
    (by decide)).1,
  ((C5_mock_login_inline mockConfig "idp" "https://idp/auth" (fun _ => true)
    sampleResolve Option.none (fun _ => Option.none) sampleSession rfl
    (by decide)).2.2).trans (by decide)⟩

/-- Claim C6: on every validated login request, the mock path is taken —
observed as the IdP client never being asked for an authorization URL — if
and only if the per-provider `mock` flag is true or the legacy
`MOCK_<IDP>_AUTH` flag keyed by the provider name is true; and when it is
taken, the synthetic username the login is performed with is the value of
the configured development cookie when present, else the configured mock
default user. -/
theorem C6_mock_resolution (cfg : FenceConfig) (idp_name getAuthUrl : String)
    (validateOk : Option String → Bool)
    (resolveUser : String → String → Option String → GUser)
    (redirectArg : Option String) (cookies : String → Option String)
    (session : Session)
    (hv : validateOk redirectArg = true) :
    ((loginGet cfg idp_name getAuthUrl validateOk resolveUser redirectArg
        cookies session).2.2.getAuthUrlCalled = false ↔
      (((cfg.openidConnect (strLower idp_name)).bind ProviderConf.mock).getD
          false = true ∨
        cfg.mockAuthFlag ("MOCK_" ++ strUpper idp_name ++ "_AUTH") = true))
    ∧ ((loginGet cfg idp_name getAuthUrl validateOk resolveUser redirectArg
        cookies session).2.2.getAuthUrlCalled = false →
        (loginGet cfg idp_name getAuthUrl validateOk resolveUser redirectArg
          cookies session).2.2.loginUserCalls =
          [((match cfg.devLoginCookieName with
             | some cookieName =>
               (cookies cookieName).getD (mock_default_user cfg idp_name)
             | none => mock_default_user cfg idp_name),
            idp_name, Option.none)]) := by
  cases hm : (mock_login cfg idp_name || legacy_mock_login cfg idp_name) with
  | true =>
    rw [loginGet_mock cfg idp_name getAuthUrl validateOk resolveUser
      redirectArg cookies session hv hm]
    have hm' := hm
    simp only [mock_login, legacy_mock_login, Bool.or_eq_true] at hm'
    constructor
    · exact ⟨fun _ => hm', fun _ => rfl⟩
    · intro _
      simp [mockUsername]
  | false =>
    rw [loginGet_real cfg idp_name getAuthUrl validateOk resolveUser
      redirectArg cookies session hv hm]
    have hm' := hm
    simp only [mock_login, legacy_mock_login, Bool.or_eq_false_iff] at hm'
    constructor
    · simp [hm'.1, hm'.2]
    · intro h
      exact absurd h (by simp)

/-- Claim C6, witness: with mock enabled and dev cookie `dev_login=b@x.com`
present, the mock path is taken and the resolved username is `b@x.com` —
the cookie takes precedence over the configured default `a@x.com`. -/
theorem C6_witness :
    (loginGet mockConfig "idp" "https://idp/auth" (fun _ => true) sampleResolve
        Option.none devCookies sampleSession).2.2.getAuthUrlCalled = false ∧
    (loginGet mockConfig "idp" "https://idp/auth" (fun _ => true) sampleResolve
        Option.none devCookies sampleSession).2.2.loginUserCalls
      = [("b@x.com", "idp", Option.none)] :=
  ⟨(C6_mock_resolution mockConfig "idp" "https://idp/auth" (fun _ => true)
      sampleResolve Option.none devCookies sampleSession rfl).1.mpr
    (Or.inl (by decide)),
  ((C6_mock_resolution mockConfig "idp" "https://idp/auth" (fun _ => true)
      sampleResolve Option.none devCookies sampleSession rfl).2
    ((C6_mock_resolution mockConfig "idp" "https://idp/auth" (fun _ => true)
      sampleResolve Option.none devCookies sampleSession rfl).1.mpr
      (Or.inl (by decide)))).trans (by decide)⟩

/-- Claim C10: for every mock-mode login where the per-provider
configuration specifies no `mock_default_user` and the development cookie
is absent, the synthetic username the login is performed with is the
hardcoded fallback `"test@example.com"`. -/
theorem C10_hardcoded_fallback (cfg : FenceConfig) (idp_name getAuthUrl : String)
    (validateOk : Option String → Bool)
    (resolveUser : String → String → Option String → GUser)
    (redirectArg : Option String) (cookies : String → Option String)
    (session : Session)
    (hv : validateOk redirectArg = true)
    (hm : (mock_login cfg idp_name || legacy_mock_login cfg idp_name) = true)
    (hconf : (cfg.openidConnect (strLower idp_name)).bind
        ProviderConf.mock_default_user = Option.none)
    (hcookie : ∀ cookieName, cfg.devLoginCookieName = some cookieName →
        cookies cookieName = Option.none) :
    (loginGet cfg idp_name getAuthUrl validateOk resolveUser redirectArg
        cookies session).2.2.loginUserCalls =
      [("test@example.com", idp_name, Option.none)] := by
  rw [loginGet_mock cfg idp_name getAuthUrl validateOk resolveUser redirectArg
    cookies session hv hm]
  rw [mockUsername_default cfg idp_name cookies hconf hcookie]

/-- Claim C10, witness: mock mode with no configured `mock_default_user`
and no cookies logs in as `test@example.com`. -/
theorem C10_witness :
    (mock_login bareMockConfig "idp" || legacy_mock_login bareMockConfig "idp")
      = true ∧
    (loginGet bareMockConfig "idp" "https://idp/auth" (fun _ => true)
        sampleResolve Option.none (fun _ => Option.none)
        sampleSession).2.2.loginUserCalls =
      [("test@example.com", "idp", Option.none)] :=
  ⟨by decide,
  C10_hardcoded_fallback bareMockConfig "idp" "https://idp/auth"
    (fun _ => true) sampleResolve Option.none (fun _ => Option.none)
    sampleSession rfl (by decide) (by decide) (fun _ _ => rfl)⟩

/-- The error branch resolves its starting redirect exactly as the spec's
"prefer the session-stored redirect, else the configured base URL". -/
theorem storedRedirect_eq (cfg : FenceConfig) (session : Session) :
    (if truthy session.redirect then session.redirect.getD "" else cfg.baseUrl)
      = specStoredRedirect cfg session := by
  unfold specStoredRedirect
  cases session.redirect with
  | none => simp [truthy]
  | some r => by_cases h : r = "" <;> simp [truthy, h]

/-- The code's error-branch URL coincides with the spec-side decomposition
into a target and a merged query string. -/
theorem callbackErrorRedirectUrl_spec (cfg : FenceConfig) (requestUrl : String)
    (session : Session) :
    callbackErrorRedirectUrl cfg requestUrl session =
      splitQbase (specErrorTarget cfg session) ++ "?" ++
        specErrorQueryString cfg requestUrl session := by
  simp only [callbackErrorRedirectUrl, specErrorTarget, specErrorQueryString]
  rw [storedRedirect_eq]
  cases hd : dictGet (parse_qsl (urlQuery (specStoredRedirect cfg session)))
      "redirect_uri" with
  | none => rfl
  | some v => by_cases hv : v = "" <;> simp [hv]

/-- Claim C2: for every callback request whose query contains a truthy
error marker, and every session state, the handler returns a redirect whose
target is the `redirect_uri` parameter embedded in the stored session
redirect (falling back to the stored redirect itself, then to the
configured base URL) and whose query string is the concatenation of the
stored redirect's query parameters followed by the callback request's
query parameters, duplicates preserved in that order; no collaborator call
is made. -/
theorem C2_error_branch (cfg : FenceConfig)
    (idp_name username_field email_field : String)
    (getUserId : Option String → List (String × String))
    (resolveUser : String → String → Option String → GUser)
    (requestUrl : String) (session : Session)
    (h : truthy (firstGet (parse_qsl (urlQuery requestUrl)) "error") = true) :
    callbackGet cfg idp_name username_field email_field getUserId resolveUser
        requestUrl session =
      (Except.ok (Response.redirect (splitQbase (specErrorTarget cfg session)
          ++ "?" ++ specErrorQueryString cfg requestUrl session)),
        Trace.none) := by
  unfold callbackGet
  simp [h, callbackErrorRedirectUrl_spec]

/-- Claim C2, witness: the spec's example — callback
`...?error=access_denied` with stored redirect
`https://app.example/cb?redirect_uri=https://app.example/done&state=xyz`
redirects to `https://app.example/done` carrying the stored parameters
first and the IdP error after them. -/
theorem C2_witness :
    truthy (firstGet (parse_qsl (urlQuery
        "https://fence.example/login/idp/callback?error=access_denied"))
      "error") = true ∧
    callbackGet sampleConfig "idp" "email" "email" (fun _ => []) sampleResolve
        "https://fence.example/login/idp/callback?error=access_denied"
        storedSession =
      (Except.ok (Response.redirect
          "https://app.example/done?redirect_uri=https://app.example/done&state=xyz&error=access_denied"),
        Trace.none) :=
  ⟨by decide,
  (C2_error_branch sampleConfig "idp" "email" "email" (fun _ => [])
    sampleResolve
    "https://fence.example/login/idp/callback?error=access_denied"
    storedSession (by decide)).trans (by rfl)⟩

/-- Claim C3: for every callback request without a truthy IdP error marker,
the success branch raises `UserError` carrying the raw exchange payload if
and only if the configured username field is absent or empty in that
payload; and whenever it raises, no login was performed (the login
collaborator was never called). -/
theorem C3_missing_username (cfg : FenceConfig)
    (idp_name username_field email_field : String)
    (getUserId : Option String → List (String × String))
    (resolveUser : String → String → Option String → GUser)
    (requestUrl : String) (session : Session)
    (hNoErr : truthy (firstGet (parse_qsl (urlQuery requestUrl)) "error")
      = false) :
    ((callbackGet cfg idp_name username_field email_field getUserId resolveUser
        requestUrl session).1 =
      Except.error (getUserId (firstGet (parse_qsl (urlQuery requestUrl))
        "code")) ↔
      (firstGet (getUserId (firstGet (parse_qsl (urlQuery requestUrl)) "code"))
          username_field = Option.none ∨
        firstGet (getUserId (firstGet (parse_qsl (urlQuery requestUrl)) "code"))
          username_field = some ""))
    ∧ ((firstGet (getUserId (firstGet (parse_qsl (urlQuery requestUrl)) "code"))
          username_field = Option.none ∨
        firstGet (getUserId (firstGet (parse_qsl (urlQuery requestUrl)) "code"))
          username_field = some "") →
      (callbackGet cfg idp_name username_field email_field getUserId
        resolveUser requestUrl session).2.loginUserCalls = []) := by
  unfold callbackGet
  simp only [hNoErr, Bool.false_eq_true, if_false]
  cases ht : truthy (firstGet (getUserId (firstGet (parse_qsl
      (urlQuery requestUrl)) "code")) username_field) with
  | false =>
    rw [truthy_eq_false_iff] at ht
    simp [ht, Trace.none]
  | true =>
    have hner : ¬(firstGet (getUserId (firstGet (parse_qsl
        (urlQuery requestUrl)) "code")) username_field = Option.none ∨
      firstGet (getUserId (firstGet (parse_qsl (urlQuery requestUrl)) "code"))
        username_field = some "") := by
      rw [← truthy_eq_false_iff]
      simp [ht]
    simp [ht, hner]

/-- Claim C3, witness: an empty exchange payload `{}` makes the callback
fail with the raw payload and no login call. -/
theorem C3_witness :
    truthy (firstGet (parse_qsl (urlQuery
        "https://fence.example/login/idp/callback?code=abc")) "error")
      = false ∧
    (callbackGet sampleConfig "idp" "email" "email" (fun _ => [])
        sampleResolve "https://fence.example/login/idp/callback?code=abc"
        sampleSession).1 = Except.error [] ∧
    (callbackGet sampleConfig "idp" "email" "email" (fun _ => [])
        sampleResolve "https://fence.example/login/idp/callback?code=abc"
        sampleSession).2.loginUserCalls = [] :=
  ⟨by decide,
  (C3_missing_username sampleConfig "idp" "email" "email" (fun _ => [])
    sampleResolve "https://fence.example/login/idp/callback?code=abc"
    sampleSession (by decide)).1.mpr (Or.inl (by decide)),
  (C3_missing_username sampleConfig "idp" "email" "email" (fun _ => [])
    sampleResolve "https://fence.example/login/idp/callback?code=abc"
    sampleSession (by decide)).2 (Or.inl (by decide))⟩

/-- Claim C9: for every exchange payload carrying a non-empty username
under the configured username field but lacking the configured email field,
the success branch completes the login, invoking the login collaborator
with an absent (`none`) email — a missing email alone never causes a
failure. -/
theorem C9_missing_email_still_logs_in (cfg : FenceConfig)
    (idp_name username_field email_field : String)
    (getUserId : Option String → List (String × String))
    (resolveUser : String → String → Option String → GUser)
    (requestUrl : String) (session : Session) (u : String)
    (hNoErr : truthy (firstGet (parse_qsl (urlQuery requestUrl)) "error")
      = false)
    (hU : firstGet (getUserId (firstGet (parse_qsl (urlQuery requestUrl))
        "code")) username_field = some u)
    (hu : u ≠ "")
    (hE : firstGet (getUserId (firstGet (parse_qsl (urlQuery requestUrl))
        "code")) email_field = Option.none) :
    callbackGet cfg idp_name username_field email_field getUserId resolveUser
        requestUrl session =
      (Except.ok («_login» cfg resolveUser session u idp_name Option.none).1,
        { loginUserCalls := [(u, idp_name, Option.none)]
          getAuthUrlCalled := false
          audit := some (prepare_login_log
            («_login» cfg resolveUser session u idp_name Option.none).2
            idp_name session) }) := by
  unfold callbackGet
  simp only [hNoErr, Bool.false_eq_true, if_false]
  simp [hU, hE, truthy, hu]

/-- Claim C9, witness: payload `{"username": "u@x.com"}` with
`username_field="username"`, `email_field="email"` completes the login as
`u@x.com` with `email=None`. -/
theorem C9_witness :
    firstGet (samplePayload Option.none) "username" = some "u@x.com" ∧
    firstGet (samplePayload Option.none) "email" = Option.none ∧
    callbackGet sampleConfig "idp" "username" "email" samplePayload
        sampleResolve "https://fence.example/login/idp/callback?code=abc"
        sampleSession =
      (Except.ok («_login» sampleConfig sampleResolve sampleSession "u@x.com"
          "idp" Option.none).1,
        { loginUserCalls := [("u@x.com", "idp", Option.none)]
          getAuthUrlCalled := false
          audit := some (prepare_login_log
            («_login» sampleConfig sampleResolve sampleSession "u@x.com"
              "idp" Option.none).2 "idp" sampleSession) }) :=
  ⟨by decide, by decide,
  C9_missing_email_still_logs_in sampleConfig "idp" "username" "email"
    samplePayload sampleResolve
    "https://fence.example/login/idp/callback?code=abc" sampleSession
    "u@x.com" (by decide) (by decide) (by decide) (by decide)⟩

end Fence
